import Mathlib

/-!
Verification of the read-only SQL query gateway (`src/app.py`).

The gateway is a FastAPI application with three SQL-executing endpoints:
`sqlquery_alchemy` (pooled SQLAlchemy backend), `sqlquery_direct`
(fresh psycopg connection per request) and `query_salesforce_data`
(JSON-body endpoint, fresh psycopg connection, no rate limiter).

The embedding below models each endpoint handler as a pure function from
the configured secret, a database oracle and the request data to a
response paired with the ordered trace of connection/transaction events
the handler performs.  The database itself is an oracle
`Db : String → DbOutcome` mapping SQL text to either a result set, a
driver-layer error (`SQLAlchemyError` / `psycopg.Error`) or any other
exception; the handler's control flow around that oracle is translated
directly from the source.
-/

namespace Gateway

/-- A SQL value as it appears in a result row. -/
inductive Value where
  | int : Int → Value
  | str : String → Value
  | null : Value
deriving DecidableEq, Repr

/-- A Python dict from column names to values, in insertion order. -/
abbrev Dict := List (String × Value)

/-- A driver-native result set: ordered column names and row tuples. -/
structure ResultSet where
  columns : List String
  rows : List (List Value)
deriving DecidableEq, Repr

/-- Outcome of handing a SQL text to the database layer:
success with a result set, an exception from the driver/connection layer
(`SQLAlchemyError` on the pooled backend, `psycopg.Error` on the direct
backend), or any other exception raised during execution or fetch. -/
inductive DbOutcome where
  | ok (rs : ResultSet)
  | dbError (msg : String)
  | otherError (msg : String)
deriving DecidableEq, Repr

/-- The database oracle: what executing a given SQL text does. -/
def Db := String → DbOutcome

/-- Connection/transaction events a handler performs, in order. -/
inductive Event where
  | connect
  | beginTxn
  | setReadOnly
  | execSql (sql : String)
  | fetch
  | commit
  | rollback
  | close
deriving DecidableEq, Repr

/-- The externally visible response of a handler. -/
inductive Resp where
  | rows (data : List Dict)
  | tuples (data : List (List Value))
  | ack (status message : String)
  | dataEnvelope (status : String) (data : List Dict)
  | error (code : Nat) (detail : String)
deriving DecidableEq, Repr

/-- Python `str.isspace` characters relevant here (ASCII whitespace),
as stripped by `str.strip()`. -/
def pyIsSpace (c : Char) : Bool :=
  c = ' ' || c = '\t' || c = '\n' || c = '\r' || c = Char.ofNat 11 || c = Char.ofNat 12

/-- Python `s.strip()`: drop whitespace from both ends. -/
def pyStrip (s : String) : String :=
  String.mk (((s.data.dropWhile pyIsSpace).reverse.dropWhile pyIsSpace).reverse)

/-- Python `s.lower()` (ASCII letters). -/
def pyLower (s : String) : String :=
  String.mk (s.data.map Char.toLower)

/-- The statement classifier `sqlquery.strip().lower().startswith('select')`
(src/app.py lines 105, 147, 184). -/
def startsSelect (s : String) : Bool :=
  List.isPrefixOf "select".data (pyLower (pyStrip s)).data

/-- One step of Python dict construction: updating an existing key keeps
its position, a new key is appended at the end. -/
def dictInsert (d : Dict) (k : String) (v : Value) : Dict :=
  if d.any (fun p => p.1 == k) then
    d.map (fun p => if p.1 == k then (k, v) else p)
  else
    d ++ [(k, v)]

/-- Python `dict(pairs)`: left-to-right insertion, later values win. -/
def pyDict (l : List (String × Value)) : Dict :=
  l.foldl (fun d p => dictInsert d p.1 p.2) []

/-- The result normalizer `[dict(zip(columns, row)) for row in rows]`
(src/app.py lines 108 and 187). -/
def normalizeRows (columns : List String) (rows : List (List Value)) : List Dict :=
  rows.map (fun row => pyDict (columns.zip row))

/-- Startup loading of `REX_API_KEY` (src/app.py lines 28, 32-34):
`os.getenv` yields `none` when unset, and a falsy (empty or missing)
value aborts startup with an error. -/
def startupApiKey (env : Option String) : Except String String :=
  match env with
  | none => .error "REX_API_KEY environment variable is required"
  | some k =>
    if k = "" then .error "REX_API_KEY environment variable is required"
    else .ok k

/-- Outcome of the pooled backend's `connect` event listener. -/
structure ConnectOutcome where
  established : Bool
  warnLog : Option String
deriving DecidableEq, Repr

/-- The `set_session_readonly` connect listener (src/app.py lines 82-89):
tries to set the raw psycopg session read-only; on any exception it only
logs a warning, and connection establishment proceeds either way. -/
def set_session_readonly (setSession : Except String Unit) : ConnectOutcome :=
  match setSession with
  | .ok _ => { established := true, warnLog := none }
  | .error e =>
    { established := true
      warnLog := some ("Failed to set SQLAlchemy session to readonly: " ++ e) }

/-- The pooled-backend endpoint `sqlquery_alchemy` (src/app.py lines 91-124).
Control flow: API-key check, `engine.connect()`, `connection.begin()`,
`SET TRANSACTION READ ONLY`, execute the caller's SQL; on a select,
fetch all rows, normalize, commit; otherwise commit and acknowledge;
on any exception roll back, then classify `SQLAlchemyError` as a
database error and anything else as unexpected, both status 500. -/
def sqlquery_alchemy (rexApiKey : String) (db : Db) (sqlquery api_key : String) :
    Resp × List Event :=
  if api_key ≠ rexApiKey then
    (.error 401 "Invalid API key", [])
  else
    match db sqlquery with
    | .ok rs =>
      if startsSelect sqlquery then
        (.rows (normalizeRows rs.columns rs.rows),
         [.connect, .beginTxn, .setReadOnly, .execSql sqlquery, .fetch, .commit, .close])
      else
        (.ack "success" "Query executed successfully",
         [.connect, .beginTxn, .setReadOnly, .execSql sqlquery, .commit, .close])
    | .dbError m =>
      (.error 500 ("Database error: " ++ m),
       [.connect, .beginTxn, .setReadOnly, .execSql sqlquery, .rollback, .close])
    | .otherError m =>
      (.error 500 ("Unexpected error: " ++ m),
       [.connect, .beginTxn, .setReadOnly, .execSql sqlquery, .rollback, .close])

/-- The direct-backend endpoint `sqlquery_direct` (src/app.py lines 126-159).
Control flow: API-key check, `psycopg.connect(...)`, `connection.transaction()`
(commits on normal exit, rolls back on exception), `SET TRANSACTION READ ONLY`,
execute the caller's SQL; on a select, `fetchall()` and return the raw row
tuples; otherwise acknowledge; `psycopg.Error` is classified as a database
error and anything else as unexpected, both status 500. -/
def sqlquery_direct (rexApiKey : String) (db : Db) (sqlquery api_key : String) :
    Resp × List Event :=
  if api_key ≠ rexApiKey then
    (.error 401 "Invalid API key", [])
  else
    match db sqlquery with
    | .ok rs =>
      if startsSelect sqlquery then
        (.tuples rs.rows,
         [.connect, .beginTxn, .setReadOnly, .execSql sqlquery, .fetch, .commit, .close])
      else
        (.ack "success" "Query executed successfully",
         [.connect, .beginTxn, .setReadOnly, .execSql sqlquery, .commit, .close])
    | .dbError m =>
      (.error 500 ("Database error: " ++ m),
       [.connect, .beginTxn, .setReadOnly, .execSql sqlquery, .rollback, .close])
    | .otherError m =>
      (.error 500 ("Unexpected error: " ++ m),
       [.connect, .beginTxn, .setReadOnly, .execSql sqlquery, .rollback, .close])

/-- A JSON payload for the `/querySalesforceData` endpoint: `payload.get(k)`
yields `none` for an absent field. -/
structure Payload where
  sqlquery : Option String
  api_key : Option String
deriving DecidableEq, Repr

/-- The JSON-body endpoint `query_salesforce_data` (src/app.py lines 164-192).
Control flow: API-key check comparing `payload.get("api_key")` (possibly
`None`) with the secret, `psycopg.connect(...)`, `connection.transaction()`,
`SET TRANSACTION READ ONLY`, execute; on a select, read `cursor.description`
for column names, fetch, normalize and wrap in a `{status, data}` envelope;
otherwise acknowledge with "Non-select executed"; every exception is caught
by one bare `except Exception` clause that returns status 500 with `str(e)`
alone.  `noneExecMsg` stands for the text of the `TypeError` raised by
`cursor.execute(None)` when the payload has no "sqlquery" field. -/
def query_salesforce_data (rexApiKey : String) (db : Db) (noneExecMsg : String)
    (payload : Payload) : Resp × List Event :=
  if payload.api_key ≠ some rexApiKey then
    (.error 401 "Invalid API key", [])
  else
    match payload.sqlquery with
    | none =>
      (.error 500 noneExecMsg,
       [.connect, .beginTxn, .setReadOnly, .rollback, .close])
    | some sqlquery =>
      match db sqlquery with
      | .ok rs =>
        if startsSelect sqlquery then
          (.dataEnvelope "success" (normalizeRows rs.columns rs.rows),
           [.connect, .beginTxn, .setReadOnly, .execSql sqlquery, .fetch, .commit, .close])
        else
          (.ack "success" "Non-select executed",
           [.connect, .beginTxn, .setReadOnly, .execSql sqlquery, .commit, .close])
      | .dbError m =>
        (.error 500 m,
         [.connect, .beginTxn, .setReadOnly, .execSql sqlquery, .rollback, .close])
      | .otherError m =>
        (.error 500 m,
         [.connect, .beginTxn, .setReadOnly, .execSql sqlquery, .rollback, .close])

/-- The fixed 429 detail text of `custom_rate_limit_exceeded_handler`
(src/app.py lines 71-76). -/
def rateLimitDetail : String :=
  "Rate limit exceeded. Please try again later or contact your administrator."

/-- The custom handler installed for `RateLimitExceeded`. -/
def custom_rate_limit_exceeded_handler : Resp :=
  .error 429 rateLimitDetail

/-- Whether the SlowAPI limiter lets the request through to the handler. -/
inductive LimiterDecision where
  | allow
  | deny
deriving DecidableEq, Repr

/-- The `@limiter.limit(RATE_LIMIT)` decorator: on denial the request is
answered by `custom_rate_limit_exceeded_handler` before the handler (and
hence any database work) runs. -/
def throttled (d : LimiterDecision) (handler : Resp × List Event) : Resp × List Event :=
  match d with
  | .deny => (custom_rate_limit_exceeded_handler, [])
  | .allow => handler

/-- The `/sqlquery_alchemy/` route: rate limiter in front of the handler. -/
def sqlquery_alchemy_route (d : LimiterDecision) (rexApiKey : String) (db : Db)
    (sqlquery api_key : String) : Resp × List Event :=
  throttled d (sqlquery_alchemy rexApiKey db sqlquery api_key)

/-- The `/sqlquery_direct/` route: rate limiter in front of the handler. -/
def sqlquery_direct_route (d : LimiterDecision) (rexApiKey : String) (db : Db)
    (sqlquery api_key : String) : Resp × List Event :=
  throttled d (sqlquery_direct rexApiKey db sqlquery api_key)

/-- The `/querySalesforceData` route: no `@limiter.limit` decorator in the
source, so the handler is reached unconditionally. -/
def query_salesforce_data_route (rexApiKey : String) (db : Db) (noneExecMsg : String)
    (payload : Payload) : Resp × List Event :=
  query_salesforce_data rexApiKey db noneExecMsg payload

/-- HTTP status of a response (non-error responses are served as 200). -/
def respStatus : Resp → Nat
  | .error code _ => code
  | _ => 200

/-- Whether a response carries row data (as opposed to a bare
acknowledgement or an error). -/
def carriesRowData : Resp → Bool
  | .rows _ => true
  | .tuples _ => true
  | .dataEnvelope _ _ => true
  | .ack _ _ => false
  | .error _ _ => false

/-- Transaction discipline of an event trace: every execution of caller
SQL is preceded by both an explicit transaction begin and the
`SET TRANSACTION READ ONLY` directive, and the directive itself comes
after the begin. -/
def readOnlyDiscipline (tr : List Event) : Bool :=
  (List.range tr.length).all fun i =>
    match tr[i]? with
    | some (.execSql _) =>
      (tr.take i).contains Event.beginTxn && (tr.take i).contains Event.setReadOnly
    | some .setReadOnly => (tr.take i).contains Event.beginTxn
    | _ => true

/-- Number of caller-SQL executions in a trace. -/
def countExec (tr : List Event) : Nat :=
  tr.countP fun e =>
    match e with
    | .execSql _ => true
    | _ => false

/-! ### Concrete database oracles used for closed-form checks -/

/-- An oracle that accepts every statement and returns an empty result set. -/
def dbEmpty : Db := fun _ => .ok { columns := [], rows := [] }

/-- An oracle for `select 1 as x`: one column, one row. -/
def dbOne : Db := fun s =>
  if s = "select 1 as x" then .ok { columns := ["x"], rows := [[.int 1]] }
  else .otherError "no table"

/-- An oracle for `select 1 as x, 2 as x`: a valid select whose result has
two columns that share the name `x`. -/
def dbDup : Db := fun s =>
  if s = "select 1 as x, 2 as x" then
    .ok { columns := ["x", "x"], rows := [[.int 1, .int 2]] }
  else .otherError "no table"

/-- An oracle on which every statement raises a driver-layer error. -/
def dbBoom : Db := fun _ => .dbError "boom"

/-- An oracle on which every statement raises a non-driver exception. -/
def dbTypeErr : Db := fun _ => .otherError "boom"

/-- An oracle raising a driver-layer error on one statement and a
non-driver exception on every other, both with the same message text. -/
def dbMixed : Db := fun s =>
  if s = "select a from t" then .dbError "boom" else .otherError "boom"

/-! ### Helper lemmas about the Python dict model -/

/-- Inserting a key absent from a dict appends the binding at the end. -/
theorem dictInsert_fresh (d : Dict) (k : String) (v : Value)
    (h : k ∉ d.map Prod.fst) : dictInsert d k v = d ++ [(k, v)] := by
  have hfalse : d.any (fun p => p.1 == k) = false := by
    rw [List.any_eq_false]
    intro p hp
    simp only [beq_iff_eq]
    intro hpk
    exact h (List.mem_map.mpr ⟨p, hp, hpk⟩)
  simp [dictInsert, hfalse]

/-- Folding dict insertion over pairs with globally distinct keys just
appends the pairs in order. -/
theorem foldl_dictInsert_append (l : List (String × Value)) :
    ∀ d : Dict, (d.map Prod.fst ++ l.map Prod.fst).Nodup →
      l.foldl (fun d p => dictInsert d p.1 p.2) d = d ++ l := by
  induction l with
  | nil => intro d _; simp
  | cons p l ih =>
    intro d hnd
    have hk : p.1 ∉ d.map Prod.fst := by
      rw [List.map_cons, List.nodup_append] at hnd
      intro hmem
      exact hnd.2.2 hmem (List.mem_cons_self _ _)
    rw [List.foldl_cons, dictInsert_fresh d p.1 p.2 hk]
    have hnd' : ((d ++ [p]).map Prod.fst ++ l.map Prod.fst).Nodup := by
      simpa [List.map_append, List.append_assoc] using hnd
    rw [ih (d ++ [p]) hnd']
    simp

/-- `dict(pairs)` is the identity when the keys are pairwise distinct. -/
theorem pyDict_nodup (l : List (String × Value)) (h : (l.map Prod.fst).Nodup) :
    pyDict l = l := by
  have := foldl_dictInsert_append l [] (by simpa using h)
  simpa [pyDict] using this

/-- With pairwise-distinct column names and full-width rows, the result
normalizer maps each row to the column/value pairs in result order. -/
theorem normalizeRows_nodup (columns : List String) (rows : List (List Value))
    (hnd : columns.Nodup) (hlen : ∀ r ∈ rows, r.length = columns.length) :
    normalizeRows columns rows = rows.map (fun r => columns.zip r) := by
  unfold normalizeRows
  apply List.map_congr_left
  intro r hr
  apply pyDict_nodup
  rw [List.map_fst_zip columns r (le_of_eq (hlen r hr).symm)]
  exact hnd

/-- The two 500-level failure messages never coincide: they start with
different fixed texts. -/
theorem database_msg_ne_unexpected_msg (m₁ m₂ : String) :
    ("Database error: " ++ m₁) ≠ ("Unexpected error: " ++ m₂) := by
  intro h
  have h2 : ("Database error: " ++ m₁).data = ("Unexpected error: " ++ m₂).data :=
    congrArg String.data h
  rw [String.data_append, String.data_append] at h2
  have hD : "Database error: ".data = 'D' :: "atabase error: ".data := rfl
  have hU : "Unexpected error: ".data = 'U' :: "nexpected error: ".data := rfl
  rw [hD, hU] at h2
  simp at h2

/-- A startup that accepted `REX_API_KEY` yields a non-empty secret. -/
theorem startupApiKey_ok_ne_empty (env : Option String) (s : String)
    (h : startupApiKey env = .ok s) : s ≠ "" := by
  cases env with
  | none => exact absurd h (by simp [startupApiKey])
  | some k =>
    simp only [startupApiKey] at h
    by_cases hk : k = ""
    · rw [if_pos hk] at h
      exact absurd h (by simp)
    · rw [if_neg hk] at h
      injection h with h'
      subst h'
      exact hk

/-! ### Claim theorems -/

/-- Claim C2 (confirmed): for every request on any backend, an explicit
transaction is begun and `SET TRANSACTION READ ONLY` is issued before the
caller's SQL text is executed; the caller's statement never runs outside
a transaction marked read-only. -/
theorem c2_readonly_txn_before_exec (rexApiKey : String) (db : Db)
    (sqlquery api_key noneExecMsg : String) (payload : Payload) :
    readOnlyDiscipline (sqlquery_alchemy rexApiKey db sqlquery api_key).2 = true ∧
    readOnlyDiscipline (sqlquery_direct rexApiKey db sqlquery api_key).2 = true ∧
    readOnlyDiscipline (query_salesforce_data rexApiKey db noneExecMsg payload).2 = true := by
  refine ⟨?_, ?_, ?_⟩
  · unfold sqlquery_alchemy
    split
    · rfl
    · split <;> (try split) <;> rfl
  · unfold sqlquery_direct
    split
    · rfl
    · split <;> (try split) <;> rfl
  · unfold query_salesforce_data
    split
    · rfl
    · split
      · rfl
      · split <;> (try split) <;> rfl

/-- Claim C3 (confirmed): the response shape is decided by whether the SQL
text, after `strip()` and `lower()`, starts with the literal `select`:
if so the response carries row data, otherwise (when the database accepts
the statement) it is the fixed success acknowledgement with no row data. -/
theorem c3_response_shape_by_classifier (rexApiKey : String) (db : Db)
    (sqlquery api_key : String) (rs : ResultSet)
    (hkey : api_key = rexApiKey) (hdb : db sqlquery = .ok rs) :
    (startsSelect sqlquery = true →
      carriesRowData (sqlquery_alchemy rexApiKey db sqlquery api_key).1 = true ∧
      carriesRowData (sqlquery_direct rexApiKey db sqlquery api_key).1 = true) ∧
    (startsSelect sqlquery = false →
      (sqlquery_alchemy rexApiKey db sqlquery api_key).1 =
        .ack "success" "Query executed successfully" ∧
      (sqlquery_direct rexApiKey db sqlquery api_key).1 =
        .ack "success" "Query executed successfully") := by
  subst hkey
  constructor
  · intro hs
    constructor <;> simp [sqlquery_alchemy, sqlquery_direct, hdb, hs, carriesRowData]
  · intro hs
    constructor <;> simp [sqlquery_alchemy, sqlquery_direct, hdb, hs]

/-- Witness for C3: a select query yields row data on both endpoints, a
non-select statement yields the fixed acknowledgement on both. -/
theorem c3_response_shape_by_classifier_witness :
    (carriesRowData (sqlquery_alchemy "k" dbOne "select 1 as x" "k").1 = true ∧
     carriesRowData (sqlquery_direct "k" dbOne "select 1 as x" "k").1 = true) ∧
    ((sqlquery_alchemy "k" dbEmpty "update t set x = 1" "k").1 =
      .ack "success" "Query executed successfully" ∧
     (sqlquery_direct "k" dbEmpty "update t set x = 1" "k").1 =
      .ack "success" "Query executed successfully") :=
  ⟨(c3_response_shape_by_classifier "k" dbOne "select 1 as x" "k"
      { columns := ["x"], rows := [[.int 1]] } rfl (by decide)).1 (by decide),
   (c3_response_shape_by_classifier "k" dbEmpty "update t set x = 1" "k"
      { columns := [], rows := [] } rfl rfl).2 (by decide)⟩

/-- Claim C5 (confirmed): every request whose presented key differs from
the configured secret is answered 401 Unauthorized regardless of the SQL
text, with an empty event trace — no database connection is acquired. -/
theorem c5_bad_key_unauthorized (rexApiKey : String) (db : Db)
    (sqlquery api_key : String) (h : api_key ≠ rexApiKey) :
    sqlquery_alchemy rexApiKey db sqlquery api_key = (.error 401 "Invalid API key", []) ∧
    sqlquery_direct rexApiKey db sqlquery api_key = (.error 401 "Invalid API key", []) := by
  constructor
  · simp [sqlquery_alchemy, h]
  · simp [sqlquery_direct, h]

/-- Witness for C5 at a concrete mismatched key. -/
theorem c5_bad_key_unauthorized_witness :
    ("wrong" ≠ "secret") ∧
    sqlquery_alchemy "secret" dbEmpty "select 1 as x" "wrong" =
      (.error 401 "Invalid API key", []) ∧
    sqlquery_direct "secret" dbEmpty "select 1 as x" "wrong" =
      (.error 401 "Invalid API key", []) :=
  ⟨by decide,
   (c5_bad_key_unauthorized "secret" dbEmpty "select 1 as x" "wrong" (by decide)).1,
   (c5_bad_key_unauthorized "secret" dbEmpty "select 1 as x" "wrong" (by decide)).2⟩

/-- Counterexample to claim C1: on the same successfully executed select
query the pooled endpoint returns column-name-to-value mappings while the
direct endpoint returns bare value tuples with no column names, so the
two responses are not identical. -/
theorem c1_counterexample :
    dbOne "select 1 as x" = .ok { columns := ["x"], rows := [[.int 1]] } ∧
    (sqlquery_alchemy "k" dbOne "select 1 as x" "k").1 = .rows [[("x", .int 1)]] ∧
    (sqlquery_direct "k" dbOne "select 1 as x" "k").1 = .tuples [[.int 1]] ∧
    (sqlquery_alchemy "k" dbOne "select 1 as x" "k").1 ≠
      (sqlquery_direct "k" dbOne "select 1 as x" "k").1 :=
  ⟨by decide, by decide, by decide, by decide⟩

/-- Claim C1 as amended: for a select query the database executes
successfully, the direct endpoint returns exactly the database's row
tuples in order, the pooled endpoint returns one column-to-value mapping
per row in the same order, and (for pairwise-distinct column names and
full-width rows) the pooled rows' values in order coincide with the
direct endpoint's tuples — but the shapes differ: only the pooled
endpoint attaches column names. -/
theorem c1_amended_backend_agreement (rexApiKey : String) (db : Db)
    (sqlquery api_key : String) (rs : ResultSet)
    (hkey : api_key = rexApiKey) (hdb : db sqlquery = .ok rs)
    (hsel : startsSelect sqlquery = true) (hnd : rs.columns.Nodup)
    (hlen : ∀ r ∈ rs.rows, r.length = rs.columns.length) :
    (sqlquery_direct rexApiKey db sqlquery api_key).1 = .tuples rs.rows ∧
    (sqlquery_alchemy rexApiKey db sqlquery api_key).1 =
      .rows (rs.rows.map (fun r => rs.columns.zip r)) ∧
    rs.rows.map (fun r => (rs.columns.zip r).map Prod.snd) = rs.rows := by
  subst hkey
  refine ⟨?_, ?_, ?_⟩
  · simp [sqlquery_direct, hdb, hsel]
  · simp [sqlquery_alchemy, hdb, hsel]
    exact normalizeRows_nodup rs.columns rs.rows hnd hlen
  · have hsnd : ∀ r ∈ rs.rows, (rs.columns.zip r).map Prod.snd = r := fun r hr =>
      List.map_snd_zip rs.columns r (le_of_eq (hlen r hr))
    calc rs.rows.map (fun r => (rs.columns.zip r).map Prod.snd)
        = rs.rows.map id := List.map_congr_left hsnd
      _ = rs.rows := List.map_id rs.rows

/-- Witness for the amended C1 at `select 1 as x`. -/
theorem c1_amended_backend_agreement_witness :
    (sqlquery_direct "k" dbOne "select 1 as x" "k").1 = .tuples [[Value.int 1]] ∧
    (sqlquery_alchemy "k" dbOne "select 1 as x" "k").1 = .rows [[("x", Value.int 1)]] ∧
    [[Value.int 1]].map (fun r => ((["x"].zip r).map Prod.snd : List Value)) =
      [[Value.int 1]] :=
  c1_amended_backend_agreement "k" dbOne "select 1 as x" "k"
    { columns := ["x"], rows := [[.int 1]] } rfl (by decide) (by decide)
    (by decide) (by decide)

/-- Counterexample to claim C4: on the valid select
`select 1 as x, 2 as x` the database returns two columns, but
`dict(zip(columns, row))` collapses the duplicate name, so the row
mapping has one key instead of two and the first column's value is
overwritten by the second. -/
theorem c4_counterexample :
    dbDup "select 1 as x, 2 as x" =
      .ok { columns := ["x", "x"], rows := [[.int 1, .int 2]] } ∧
    startsSelect "select 1 as x, 2 as x" = true ∧
    (sqlquery_alchemy "k" dbDup "select 1 as x, 2 as x" "k").1 =
      .rows [[("x", .int 2)]] ∧
    [(("x" : String), Value.int 2)].length = 1 ∧
    (["x", "x"] : List String).length = 2 :=
  ⟨by decide, by decide, by decide, by decide, by decide⟩

/-- Claim C4 as amended: for a select with pairwise-distinct result
column names and full-width rows, every returned row is the mapping of
each column name (in result order) to its value, with as many keys as
columns, and row order equals the database's order; with duplicate
column names the mapping has fewer keys and later columns win. -/
theorem c4_amended_normalizer (rexApiKey : String) (db : Db)
    (sqlquery api_key noneExecMsg : String) (rs : ResultSet)
    (hkey : api_key = rexApiKey) (hdb : db sqlquery = .ok rs)
    (hsel : startsSelect sqlquery = true) (hnd : rs.columns.Nodup)
    (hlen : ∀ r ∈ rs.rows, r.length = rs.columns.length) :
    (sqlquery_alchemy rexApiKey db sqlquery api_key).1 =
      .rows (rs.rows.map (fun r => rs.columns.zip r)) ∧
    (query_salesforce_data rexApiKey db noneExecMsg
        { sqlquery := some sqlquery, api_key := some api_key }).1 =
      .dataEnvelope "success" (rs.rows.map (fun r => rs.columns.zip r)) ∧
    (∀ r ∈ rs.rows,
      (rs.columns.zip r).map Prod.fst = rs.columns ∧
      (rs.columns.zip r).length = rs.columns.length) := by
  subst hkey
  refine ⟨?_, ?_, fun r hr => ⟨?_, ?_⟩⟩
  · simp [sqlquery_alchemy, hdb, hsel]
    exact normalizeRows_nodup rs.columns rs.rows hnd hlen
  · simp [query_salesforce_data, hdb, hsel]
    exact normalizeRows_nodup rs.columns rs.rows hnd hlen
  · exact List.map_fst_zip rs.columns r (le_of_eq (hlen r hr).symm)
  · rw [List.length_zip, hlen r hr, Nat.min_self]

/-- Witness for the amended C4 at `select 1 as x`. -/
theorem c4_amended_normalizer_witness :
    (sqlquery_alchemy "k" dbOne "select 1 as x" "k").1 = .rows [[("x", Value.int 1)]] ∧
    (query_salesforce_data "k" dbOne "te"
        { sqlquery := some "select 1 as x", api_key := some "k" }).1 =
      .dataEnvelope "success" [[("x", Value.int 1)]] ∧
    (∀ r ∈ [[Value.int 1]],
      ((["x"].zip r).map Prod.fst : List String) = ["x"] ∧
      (["x"].zip r).length = (["x"] : List String).length) :=
  c4_amended_normalizer "k" dbOne "select 1 as x" "k" "te"
    { columns := ["x"], rows := [[.int 1]] } rfl (by decide) (by decide)
    (by decide) (by decide)

/-- Claim C6 (confirmed): when execution of the caller's SQL raises (a
driver error or any other exception, on either GET endpoint), the
transaction is rolled back and never committed, the caller's statement
was executed exactly once (no retry), and the response is the error
classifier's output for that exception. -/
theorem c6_failure_rollback_no_retry (rexApiKey : String) (db : Db)
    (sqlquery api_key m : String) (hkey : api_key = rexApiKey) :
    (db sqlquery = .dbError m →
      ((sqlquery_alchemy rexApiKey db sqlquery api_key).1 =
          .error 500 ("Database error: " ++ m) ∧
       Event.rollback ∈ (sqlquery_alchemy rexApiKey db sqlquery api_key).2 ∧
       Event.commit ∉ (sqlquery_alchemy rexApiKey db sqlquery api_key).2 ∧
       countExec (sqlquery_alchemy rexApiKey db sqlquery api_key).2 = 1) ∧
      ((sqlquery_direct rexApiKey db sqlquery api_key).1 =
          .error 500 ("Database error: " ++ m) ∧
       Event.rollback ∈ (sqlquery_direct rexApiKey db sqlquery api_key).2 ∧
       Event.commit ∉ (sqlquery_direct rexApiKey db sqlquery api_key).2 ∧
       countExec (sqlquery_direct rexApiKey db sqlquery api_key).2 = 1)) ∧
    (db sqlquery = .otherError m →
      ((sqlquery_alchemy rexApiKey db sqlquery api_key).1 =
          .error 500 ("Unexpected error: " ++ m) ∧
       Event.rollback ∈ (sqlquery_alchemy rexApiKey db sqlquery api_key).2 ∧
       Event.commit ∉ (sqlquery_alchemy rexApiKey db sqlquery api_key).2 ∧
       countExec (sqlquery_alchemy rexApiKey db sqlquery api_key).2 = 1) ∧
      ((sqlquery_direct rexApiKey db sqlquery api_key).1 =
          .error 500 ("Unexpected error: " ++ m) ∧
       Event.rollback ∈ (sqlquery_direct rexApiKey db sqlquery api_key).2 ∧
       Event.commit ∉ (sqlquery_direct rexApiKey db sqlquery api_key).2 ∧
       countExec (sqlquery_direct rexApiKey db sqlquery api_key).2 = 1)) := by
  subst hkey
  constructor <;> intro hdb <;>
    refine ⟨⟨?_, ?_, ?_, ?_⟩, ⟨?_, ?_, ?_, ?_⟩⟩ <;>
    simp [sqlquery_alchemy, sqlquery_direct, hdb, countExec]

/-- Witness for C6 at concrete driver and non-driver failures. -/
theorem c6_failure_rollback_no_retry_witness :
    ((sqlquery_alchemy "k" dbBoom "select 1 as x" "k").1 =
        .error 500 "Database error: boom" ∧
     Event.rollback ∈ (sqlquery_alchemy "k" dbBoom "select 1 as x" "k").2 ∧
     Event.commit ∉ (sqlquery_alchemy "k" dbBoom "select 1 as x" "k").2 ∧
     countExec (sqlquery_alchemy "k" dbBoom "select 1 as x" "k").2 = 1) ∧
    ((sqlquery_direct "k" dbTypeErr "select 1 as x" "k").1 =
        .error 500 "Unexpected error: boom" ∧
     Event.rollback ∈ (sqlquery_direct "k" dbTypeErr "select 1 as x" "k").2 ∧
     Event.commit ∉ (sqlquery_direct "k" dbTypeErr "select 1 as x" "k").2 ∧
     countExec (sqlquery_direct "k" dbTypeErr "select 1 as x" "k").2 = 1) :=
  ⟨((c6_failure_rollback_no_retry "k" dbBoom "select 1 as x" "k" "boom" rfl).1 rfl).1,
   ((c6_failure_rollback_no_retry "k" dbTypeErr "select 1 as x" "k" "boom" rfl).2 rfl).2⟩

/-- Counterexample to claim C7: on the JSON-body endpoint, whose single
bare `except Exception` clause the claim also covers, a driver-layer
failure and a non-driver failure with the same exception text produce
identical responses (status 500, message `str(e)` alone) — the
UnexpectedFailure kind is not distinct from DatabaseFailure there. -/
theorem c7_counterexample :
    dbMixed "select a from t" = .dbError "boom" ∧
    dbMixed "frobnicate" = .otherError "boom" ∧
    (query_salesforce_data "k" dbMixed "te"
        { sqlquery := some "select a from t", api_key := some "k" }).1 =
      .error 500 "boom" ∧
    (query_salesforce_data "k" dbMixed "te"
        { sqlquery := some "frobnicate", api_key := some "k" }).1 =
      (query_salesforce_data "k" dbMixed "te"
        { sqlquery := some "select a from t", api_key := some "k" }).1 :=
  ⟨by decide, by decide, by decide, by decide⟩

/-- Claim C7 as amended: on the two GET endpoints every caught failure
maps to one of four kinds with pairwise-distinct (status, message)
responses — 401 "Invalid API key", 429 fixed rate-limit text,
500 "Database error: " plus the driver's message, 500 "Unexpected
error: " plus the message — and the database-failure message includes
the driver's text; the JSON-body endpoint instead answers every failure
with status 500 and the exception text alone, so DatabaseFailure and
UnexpectedFailure are not distinguished there. -/
theorem c7_amended_error_taxonomy (rexApiKey : String) (db : Db)
    (sqlquery api_key m noneExecMsg : String) (hkey : api_key = rexApiKey) :
    (db sqlquery = .dbError m →
      (sqlquery_alchemy rexApiKey db sqlquery api_key).1 =
        .error 500 ("Database error: " ++ m) ∧
      (sqlquery_direct rexApiKey db sqlquery api_key).1 =
        .error 500 ("Database error: " ++ m) ∧
      (query_salesforce_data rexApiKey db noneExecMsg
          { sqlquery := some sqlquery, api_key := some api_key }).1 = .error 500 m) ∧
    (db sqlquery = .otherError m →
      (sqlquery_alchemy rexApiKey db sqlquery api_key).1 =
        .error 500 ("Unexpected error: " ++ m) ∧
      (sqlquery_direct rexApiKey db sqlquery api_key).1 =
        .error 500 ("Unexpected error: " ++ m) ∧
      (query_salesforce_data rexApiKey db noneExecMsg
          { sqlquery := some sqlquery, api_key := some api_key }).1 = .error 500 m) ∧
    (∃ p q, ("Database error: " ++ m) = p ++ m ++ q) ∧
    (∀ m₁ m₂ : String,
      Resp.error 401 "Invalid API key" ≠ custom_rate_limit_exceeded_handler ∧
      Resp.error 401 "Invalid API key" ≠ .error 500 ("Database error: " ++ m₁) ∧
      Resp.error 401 "Invalid API key" ≠ .error 500 ("Unexpected error: " ++ m₂) ∧
      custom_rate_limit_exceeded_handler ≠ .error 500 ("Database error: " ++ m₁) ∧
      custom_rate_limit_exceeded_handler ≠ .error 500 ("Unexpected error: " ++ m₂) ∧
      Resp.error 500 ("Database error: " ++ m₁) ≠
        .error 500 ("Unexpected error: " ++ m₂)) := by
  subst hkey
  refine ⟨fun hdb => ?_, fun hdb => ?_, ⟨"Database error: ", "", by simp⟩, fun m₁ m₂ => ?_⟩
  · exact ⟨by simp [sqlquery_alchemy, hdb], by simp [sqlquery_direct, hdb],
      by simp [query_salesforce_data, hdb]⟩
  · exact ⟨by simp [sqlquery_alchemy, hdb], by simp [sqlquery_direct, hdb],
      by simp [query_salesforce_data, hdb]⟩
  · refine ⟨by simp [custom_rate_limit_exceeded_handler], by simp, by simp,
      by simp [custom_rate_limit_exceeded_handler],
      by simp [custom_rate_limit_exceeded_handler], ?_⟩
    intro h
    injection h with h1 h2
    exact database_msg_ne_unexpected_msg m₁ m₂ h2

/-- Witness for the amended C7 at concrete failures. -/
theorem c7_amended_error_taxonomy_witness :
    (sqlquery_alchemy "k" dbBoom "select 1 as x" "k").1 =
      .error 500 "Database error: boom" ∧
    (sqlquery_direct "k" dbTypeErr "select 1 as x" "k").1 =
      .error 500 "Unexpected error: boom" ∧
    Resp.error 500 "Database error: boom" ≠ Resp.error 500 "Unexpected error: boom" :=
  ⟨((c7_amended_error_taxonomy "k" dbBoom "select 1 as x" "k" "boom" "te" rfl).1 rfl).1,
   ((c7_amended_error_taxonomy "k" dbTypeErr "select 1 as x" "k" "boom" "te" rfl).2.1 rfl).2.1,
   ((c7_amended_error_taxonomy "k" dbBoom "select 1 as x" "k" "boom" "te" rfl).2.2.2
     "boom" "boom").2.2.2.2.2⟩

/-- Claim C8 (confirmed): a request denied by the rate limiter is
answered with status 429 and the fixed human-readable message before the
handler runs, while the JSON-body endpoint has no limiter in front of it
and never returns status 429 for any input. -/
theorem c8_rate_limiter_coverage (d : LimiterDecision) (rexApiKey : String) (db : Db)
    (sqlquery api_key noneExecMsg : String) (payload : Payload) (hd : d = .deny) :
    sqlquery_alchemy_route d rexApiKey db sqlquery api_key =
      (.error 429 rateLimitDetail, []) ∧
    sqlquery_direct_route d rexApiKey db sqlquery api_key =
      (.error 429 rateLimitDetail, []) ∧
    respStatus (query_salesforce_data_route rexApiKey db noneExecMsg payload).1 ≠ 429 := by
  subst hd
  refine ⟨rfl, rfl, ?_⟩
  unfold query_salesforce_data_route query_salesforce_data
  split
  · simp [respStatus]
  · split
    · simp [respStatus]
    · split
      · split <;> simp [respStatus]
      · simp [respStatus]
      · simp [respStatus]

/-- Witness for C8 at a concrete denied request and a concrete JSON
request. -/
theorem c8_rate_limiter_coverage_witness :
    sqlquery_alchemy_route .deny "k" dbEmpty "select 1 as x" "k" =
      (.error 429 rateLimitDetail, []) ∧
    sqlquery_direct_route .deny "k" dbEmpty "select 1 as x" "k" =
      (.error 429 rateLimitDetail, []) ∧
    respStatus (query_salesforce_data_route "k" dbEmpty "te"
      { sqlquery := some "select 1 as x", api_key := some "k" }).1 ≠ 429 :=
  c8_rate_limiter_coverage .deny "k" dbEmpty "select 1 as x" "k" "te"
    { sqlquery := some "select 1 as x", api_key := some "k" } rfl

/-- Claim C9 (confirmed): the pooled backend's session-level read-only
flag is best-effort — whatever the `set_session` call does, connection
establishment succeeds, and a failure is only recorded as a warning. -/
theorem c9_connect_listener_never_fails :
    (∀ setSession : Except String Unit,
      (set_session_readonly setSession).established = true) ∧
    (∀ e : String,
      set_session_readonly (.error e) =
        { established := true,
          warnLog := some ("Failed to set SQLAlchemy session to readonly: " ++ e) }) := by
  constructor
  · intro o
    cases o <;> rfl
  · intro e
    rfl

/-- Claim C10 (confirmed): a JSON payload with no "api_key" field is read
as a null key, which never equals the configured secret — non-empty by
the startup check — so the endpoint answers 401 with no database work. -/
theorem c10_missing_api_key_unauthorized (env : Option String) (rexApiKey : String)
    (db : Db) (noneExecMsg : String) (payload : Payload)
    (hstart : startupApiKey env = .ok rexApiKey) (hmissing : payload.api_key = none) :
    query_salesforce_data rexApiKey db noneExecMsg payload =
      (.error 401 "Invalid API key", []) ∧
    rexApiKey ≠ "" := by
  refine ⟨?_, startupApiKey_ok_ne_empty env rexApiKey hstart⟩
  simp [query_salesforce_data, hmissing]

/-- Witness for C10 at a concrete payload lacking "api_key". -/
theorem c10_missing_api_key_unauthorized_witness :
    query_salesforce_data "k" dbEmpty "te"
        { sqlquery := some "select 1 as x", api_key := none } =
      (.error 401 "Invalid API key", []) ∧
    ("k" : String) ≠ "" :=
  c10_missing_api_key_unauthorized (some "k") "k" dbEmpty "te"
    { sqlquery := some "select 1 as x", api_key := none } rfl rfl

end Gateway
